import Mathlib

/-!
Verification of the typed JSON decoder of `audiconnectpy` (`model.py`).

The source file declares ~25 record schemas (dataclasses) together with two
value-coercion strategies (`Locked`, `OnOff`) and a key pre-processing hook
(`Base.__pre_deserialize__`, which rewrites every raw key with
`helpers.camel2snake`).  The generic decode engine itself (field lookup by
alias or normalized name, required/optional handling, nested decoding) and
the `camel2snake` helper live outside the provided source, so those parts
are modelled from the specification; the schema tables, the coercion
strategies and the per-field lambdas are translated directly from
`model.py`.
-/

/-- Raw JSON-like values received over the wire. -/
inductive Value where
  | null : Value
  | b (x : Bool) : Value
  | i (n : Int) : Value
  | s (str : String) : Value
  | obj (kvs : List (String × Value)) : Value
  | arr (vs : List Value) : Value
deriving Repr

/-- Decode errors, following the spec taxonomy: `missingField` is the
MissingFieldError, `fieldDecode` the FieldDecodeError; nested record
failures are wrapped with the path via `inField`. -/
inductive DErr where
  | missingField (sname fname : String) : DErr
  | fieldDecode (sname fname : String) (raw : Value) : DErr
  | notAMapping (sname : String) (raw : Value) : DErr
  | inField (sname fname : String) (inner : DErr) : DErr
  | outOfFuel (sname : String) : DErr
deriving Repr

/-- Decoded field values: raw passthrough, coerced booleans, timestamps
(absolute instants, as microseconds since the Unix epoch, matching Python
aware-datetime equality), nested records and lists of nested records. -/
inductive DVal where
  | raw (v : Value) : DVal
  | b (x : Bool) : DVal
  | time (epochSeconds : Int) : DVal
  | record (fields : List (String × Option DVal)) : DVal
  | list (items : List DVal) : DVal
deriving Repr

/-- A decoded record: output-field name to present value or no-value. -/
abbrev Rec := List (String × Option DVal)

/-- First-match association lookup (Python dict keys are unique, so
first-match agrees with dict lookup on all inputs we consider). -/
def assocLookup {α : Type} : List (String × α) → String → Option α
  | [], _ => none
  | (k, v) :: rest, key => if k == key then some v else assocLookup rest key

/-- Python cross-type equality of a runtime value against a string literal:
true only for an equal string (`True == "locked"` is `False` in Python). -/
def pyEqStr : Value → String → Bool
  | .s t, u => t == u
  | _, _ => false

/-- From `Locked.serialize` in `model.py`: returns its argument unchanged. -/
def Locked.serialize (value : Value) : Value := value

/-- From `Locked.deserialize` in `model.py`: `value == "locked"`. -/
def Locked.deserialize (value : Value) : Bool := pyEqStr value "locked"

/-- From `OnOff.serialize` in `model.py`: returns its argument unchanged. -/
def OnOff.serialize (value : Value) : Value := value

/-- From `OnOff.deserialize` in `model.py`: `value != "off"`. -/
def OnOff.deserialize (value : Value) : Bool := !(pyEqStr value "off")

/-- Modelled from the spec: the repository's `helpers.camel2snake` (used by
`Base.__pre_deserialize__`) is not under the provided source.  Per the spec
(Key Normalizer): insert a separator before each internal case transition
and lowercase; the spec's own examples fix the rule
(`currentSOC_pct` to `current_soc_pct`,
`cruisingRangeElectricKm` to `cruising_range_electric_km`).
Helper: walk the characters with the previous character as context. -/
def c2sAux : Char → List Char → List Char
  | _, [] => []
  | p, c :: rest =>
      let nextLower := match rest with
        | d :: _ => d.isLower
        | [] => false
      let sep := c.isUpper && (p.isLower || p.isDigit || (p.isUpper && nextLower))
      if sep then '_' :: c.toLower :: c2sAux c rest
      else c.toLower :: c2sAux c rest

/-- Modelled from the spec: canonical snake-case normalization of one raw
key (see `c2sAux`); digits and existing separators are unaltered, and the
function is idempotent because its output has no uppercase letter. -/
def camel2snake (key : String) : String :=
  match key.toList with
  | [] => ""
  | c :: rest => String.mk (c.toLower :: c2sAux c rest)

/-- From `Base.__pre_deserialize__` in `model.py`: every key of the raw
mapping is rewritten with `camel2snake` before field matching. -/
def normalizeKeys (raw : List (String × Value)) : List (String × Value) :=
  raw.map (fun kv => (camel2snake kv.1, kv.2))


/-- Parse one decimal digit. -/
def digitVal (c : Char) : Option Nat :=
  if c.isDigit then some (c.toNat - 48) else none

/-- Parse exactly two decimal digits from the front of the list. -/
def digits2 : List Char → Option (Nat × List Char)
  | a :: b :: rest =>
      match digitVal a, digitVal b with
      | some x, some y => some (x * 10 + y, rest)
      | _, _ => none
  | _ => none

/-- Parse exactly four decimal digits from the front of the list. -/
def digits4 : List Char → Option (Nat × List Char)
  | a :: b :: c :: d :: rest =>
      match digitVal a, digitVal b, digitVal c, digitVal d with
      | some w, some x, some y, some z =>
          some (w * 1000 + x * 100 + y * 10 + z, rest)
      | _, _, _, _ => none
  | _ => none

/-- Expect one literal character. -/
def expectChar (c : Char) : List Char → Option (List Char)
  | d :: rest => if d == c then some rest else none
  | [] => none

/-- Gregorian leap year, as validated by Python `datetime`. -/
def isLeap (y : Nat) : Bool :=
  (y % 4 == 0 && y % 100 != 0) || y % 400 == 0

/-- Days in a Gregorian month. -/
def daysInMonth (y m : Nat) : Nat :=
  if m == 2 then (if isLeap y then 29 else 28)
  else if m == 4 || m == 6 || m == 9 || m == 11 then 30
  else 31

/-- Days from 1970-01-01 to the given civil date (standard
era/year-of-era civil-calendar arithmetic), as an integer. -/
def daysFromCivil (y m d : Nat) : Int :=
  let yAdj : Nat := if m ≤ 2 then y - 1 else y
  let era : Nat := yAdj / 400
  let yoe : Nat := yAdj - era * 400
  let mp : Nat := (m + 9) % 12
  let doy : Nat := (153 * mp + 2) / 5 + d - 1
  let doe : Nat := yoe * 365 + yoe / 4 - yoe / 100 + doy
  (era * 146097 + doe : Int) - 719468

/-- Inverse of `daysFromCivil`: civil date of a day count relative to
1970-01-01 (used only to print timestamps; evaluated concretely). -/
def civilFromDays (z0 : Int) : Int × Int × Int :=
  let z := z0 + 719468
  let era := z.ediv 146097
  let doe := z.emod 146097
  let yoe := (doe - doe.ediv 1460 + doe.ediv 36524 - doe.ediv 146096).ediv 365
  let y := yoe + era * 400
  let doy := doe - (365 * yoe + yoe.ediv 4 - yoe.ediv 100)
  let mp := (5 * doy + 2).ediv 153
  let d := doy - (153 * mp + 2).ediv 5 + 1
  let m := mp + (if mp < 10 then 3 else -9)
  (if m ≤ 2 then y + 1 else y, m, d)

/-- Parse a numeric strptime directive written with one or two digits, as
CPython's directive regexes do (e.g. `%m` is an alternation of two-digit
forms and a one-digit form): a two-digit form must lie in the directive's
two-digit range, and a single digit (possible exactly when the next
character is not a digit; every literal following a numeric directive in
this format is a non-digit, so the match is deterministic) must lie in the
one-digit range. -/
def parse2or1 (valid2 valid1 : Nat → Bool) : List Char → Option (Nat × List Char)
  | a :: b :: rest =>
      match digitVal a, digitVal b with
      | some x, some y =>
          let v := x * 10 + y
          if valid2 v then some (v, rest) else none
      | some x, none =>
          if valid1 x then some (x, b :: rest) else none
      | _, _ => none
  | [a] =>
      match digitVal a with
      | some x => if valid1 x then some (x, []) else none
      | none => none
  | [] => none

/-- The literal `T` of the format, matched case-insensitively: CPython
compiles the whole format regex with IGNORECASE. -/
def expectT : List Char → Option (List Char)
  | d :: rest => if d == 'T' || d == 't' then some rest else none
  | [] => none

/-- Fractional offset seconds of the `%z` directive: a dot followed by
one to six digits, right-padded to microseconds. -/
def parseFrac : List Char → Option Int
  | '.' :: ds =>
      if 1 ≤ ds.length && ds.length ≤ 6 && ds.all Char.isDigit then
        some (((ds.foldl (fun acc c => acc * 10 + (c.toNat - 48)) 0) *
          10 ^ (6 - ds.length) : Nat) : Int)
      else none
  | _ => none

/-- Total offset with the timezone constructor's range check: the offset
must stay strictly below 24 hours.  Arguments: sign, hours, minutes,
seconds, fractional microseconds; result in microseconds. -/
def mkOffset (sgn : Int) (h mi sec : Nat) (frac : Int) : Option Int :=
  let total : Int := ((h * 3600 + mi * 60 + sec) * 1000000 : Nat) + frac
  if total < 86400000000 then some (sgn * total) else none

/-- The `%z` directive of CPython strptime: `Z` (case-sensitively: the
regex group disables IGNORECASE for it), or a sign, two-digit hours,
two-digit minutes below sixty, optional two-digit seconds below sixty
with an optional one-to-six-digit fraction.  Colons are optional in the
regex but the post-processing demands consistency: with a colon after the
hours a second colon must precede the seconds, and without one a colon
before the seconds is a hard failure.  The whole input must be consumed.
Result: offset in microseconds. -/
def parseOffset : List Char → Option Int
  | ['Z'] => some 0
  | sign :: rest =>
      let sgn : Int := if sign == '+' then 1 else if sign == '-' then -1 else 0
      if sgn == 0 then none
      else
        match digits2 rest with
        | none => none
        | some (h, r2) =>
            match r2 with
            | ':' :: r3 =>
                match digits2 r3 with
                | none => none
                | some (mi, r4) =>
                    if 60 ≤ mi then none
                    else
                      match r4 with
                      | [] => mkOffset sgn h mi 0 0
                      | ':' :: r5 =>
                          match digits2 r5 with
                          | none => none
                          | some (sec, r6) =>
                              if 60 ≤ sec then none
                              else
                                match r6 with
                                | [] => mkOffset sgn h mi sec 0
                                | _ =>
                                    match parseFrac r6 with
                                    | some fr => mkOffset sgn h mi sec fr
                                    | none => none
                      | _ => none
            | _ =>
                match digits2 r2 with
                | none => none
                | some (mi, r4) =>
                    if 60 ≤ mi then none
                    else
                      match r4 with
                      | [] => mkOffset sgn h mi 0 0
                      | ':' :: _ => none
                      | _ =>
                          match digits2 r4 with
                          | none => none
                          | some (sec, r6) =>
                              if 60 ≤ sec then none
                              else
                                match r6 with
                                | [] => mkOffset sgn h mi sec 0
                                | _ =>
                                    match parseFrac r6 with
                                    | some fr => mkOffset sgn h mi sec fr
                                    | none => none
  | [] => none

/-- From the `time_in_car` lambda in `model.py`:
`datetime.strptime(x, "%Y-%m-%dT%H:%M:%S%z")`, modelled after CPython's
strptime: a four-digit year, one-or-two-digit month, day, hour, minute
and second with the directives' ranges (the regex also admits leap
seconds 60 and 61, which the datetime constructor then rejects), literal
separators with a case-insensitive `T`, the `%z` offset as in
`parseOffset`, and the constructor's range checks (year at least 1, a
valid calendar day, second at most 59).  Result: the absolute instant in
microseconds since the Unix epoch (aware datetimes compare by instant);
`none` exactly where CPython raises `ValueError`. -/
def strptimeTZ (input : String) : Option Int :=
  match digits4 input.toList with
  | none => none
  | some (y, r1) =>
    match expectChar '-' r1 with
    | none => none
    | some r2 =>
      match parse2or1 (fun v => 1 ≤ v && v ≤ 12) (fun v => 1 ≤ v) r2 with
      | none => none
      | some (m, r3) =>
        match expectChar '-' r3 with
        | none => none
        | some r4 =>
          match parse2or1 (fun v => 1 ≤ v && v ≤ 31) (fun v => 1 ≤ v) r4 with
          | none => none
          | some (d, r5) =>
            match expectT r5 with
            | none => none
            | some r6 =>
              match parse2or1 (fun v => v ≤ 23) (fun _ => true) r6 with
              | none => none
              | some (hh, r7) =>
                match expectChar ':' r7 with
                | none => none
                | some r8 =>
                  match parse2or1 (fun v => v ≤ 59) (fun _ => true) r8 with
                  | none => none
                  | some (mi, r9) =>
                    match expectChar ':' r9 with
                    | none => none
                    | some r10 =>
                      match parse2or1 (fun v => v ≤ 61) (fun _ => true) r10 with
                      | none => none
                      | some (ss, r11) =>
                        match parseOffset r11 with
                        | none => none
                        | some off =>
                          if 1 ≤ y && 1 ≤ m && m ≤ 12 &&
                             1 ≤ d && d ≤ daysInMonth y m &&
                             hh ≤ 23 && mi ≤ 59 && ss ≤ 59 then
                            some ((daysFromCivil y m d * 86400 +
                              ((hh * 3600 + mi * 60 + ss : Nat) : Int)) * 1000000 - off)
                          else none

/-- Zero-pad a (nonnegative, concrete) integer to two digits. -/
def pad2 (n : Int) : String :=
  if n < 10 then "0" ++ toString n else toString n

/-- Zero-pad a (nonnegative, concrete) integer to four digits. -/
def pad4 (n : Int) : String :=
  if n < 10 then "000" ++ toString n
  else if n < 100 then "00" ++ toString n
  else if n < 1000 then "0" ++ toString n
  else toString n

/-- Zero-pad a (nonnegative, concrete) integer to six digits. -/
def pad6 (n : Int) : String :=
  if n < 10 then "00000" ++ toString n
  else if n < 100 then "0000" ++ toString n
  else if n < 1000 then "000" ++ toString n
  else if n < 10000 then "00" ++ toString n
  else if n < 100000 then "0" ++ toString n
  else toString n

/-- Modelled from the spec: the re-encode path mirrors decode; a decoded
timestamp (absolute instant in microseconds) is re-emitted as its ISO
form in UTC, the fractional part printed only when nonzero, as Python
isoformat does. -/
def isoOfEpoch (t : Int) : String :=
  let secs := t.ediv 1000000
  let micro := t.emod 1000000
  let days := secs.ediv 86400
  let rem := secs.emod 86400
  match civilFromDays days with
  | (y, m, d) =>
      pad4 y ++ "-" ++ pad2 m ++ "-" ++ pad2 d ++ "T" ++
      pad2 (rem.ediv 3600) ++ ":" ++ pad2 ((rem.ediv 60).emod 60) ++ ":" ++
      pad2 (rem.emod 60) ++
      (if micro == 0 then "" else "." ++ pad6 micro) ++ "+00:00"


/-- The closed catalogue of per-field value coercions appearing in
`model.py`: passthrough (no transform), the `Locked` and `OnOff`
strategies, the two inline lambdas comparing against `"charging"` and
`"connected"`, the strict `strptime` timestamp lambda, the generic
ISO timestamp coercion for declared `datetime` fields, and the
door/window/light aggregate helpers. -/
inductive Coercion where
  | passthrough : Coercion
  | locked : Coercion
  | onoff : Coercion
  | eqCharging : Coercion
  | eqConnected : Coercion
  | tsStrict : Coercion
  | tsIso : Coercion
  | aggregate : Coercion
deriving Repr, DecidableEq

mutual
/-- Field value shape: a plainly coerced value, a nested record, or an
ordered list of nested records. -/
inductive FTy where
  | prim (c : Coercion) : FTy
  | recS (s : Schema) : FTy
  | recList (s : Schema) : FTy

/-- One schema field: output name, optional explicit source alias,
required flag (no default in the dataclass), the declared-optional flag
(whether the annotation admits `None`), and the value shape. -/
inductive FieldD where
  | mk (name : String) (al : Option String)
      (required declaredOptional : Bool) (ty : FTy) : FieldD

/-- A record schema: its name and its fields in declaration order. -/
inductive Schema where
  | mk (sname : String) (fields : List FieldD) : Schema
end

def FieldD.name : FieldD → String
  | .mk n _ _ _ _ => n

def FieldD.al : FieldD → Option String
  | .mk _ a _ _ _ => a

def FieldD.required : FieldD → Bool
  | .mk _ _ r _ _ => r

def FieldD.declaredOptional : FieldD → Bool
  | .mk _ _ _ o _ => o

def FieldD.ty : FieldD → FTy
  | .mk _ _ _ _ t => t

def Schema.sname : Schema → String
  | .mk n _ => n

def Schema.fields : Schema → List FieldD
  | .mk _ fs => fs

/-- Modelled from the spec: locate the raw value for one field.  Keys are
rewritten to canonical form (the `Base.__pre_deserialize__` hook) before
field matching, unless the field declares an explicit alias, in which case
the alias is looked up verbatim, bypassing normalization. -/
def lookupField (raw : List (String × Value)) (f : FieldD) : Option Value :=
  match f.al with
  | some a => assocLookup raw a
  | none => assocLookup (normalizeKeys raw) f.name

/-- Modelled from the spec: flatten a sequence of id/status objects into a
direct id-to-status mapping (the `doors_status`, `windows_status` and
`lights_status` helpers, which are not under the provided source). -/
def aggregateItem : Value → Option (String × Value)
  | .obj kvs =>
      match assocLookup kvs "id", assocLookup kvs "status" with
      | some (.s k), some st => some (k, st)
      | _, _ => none
  | _ => none

/-- See `aggregateItem`. -/
def aggregateStatus : Value → Option DVal
  | .arr items => (items.mapM aggregateItem).map (fun ps => .raw (.obj ps))
  | _ => none

/-- Apply one catalogued coercion to a present raw value; `none` models a
raised exception inside the transform.  The strategy and lambda cases are
translated from `model.py`; the timestamp and aggregate helpers are as
above. -/
def applyCoercion : Coercion → Value → Option DVal
  | .passthrough, v => some (.raw v)
  | .locked, v => some (.b (Locked.deserialize v))
  | .onoff, v => some (.b (OnOff.deserialize v))
  | .eqCharging, v => some (.b (pyEqStr v "charging"))
  | .eqConnected, v => some (.b (pyEqStr v "connected"))
  | .tsStrict, .s str => (strptimeTZ str).map DVal.time
  | .tsStrict, _ => none
  | .tsIso, .s str => (strptimeTZ str).map DVal.time
  | .tsIso, _ => none
  | .aggregate, v => aggregateStatus v

/-- Modelled from the spec: decode one field given its located raw value
(`dec` decodes nested records).  Absent or null: no-value if the field is
optional, an error if it is required.  Present: apply the declared
coercion, or recursively decode nested records / lists of records; a
failing transform yields a FieldDecodeError naming schema, field and the
offending raw value, and nested failures are wrapped with the path. -/
def decodeFieldWith (dec : Schema → Value → Except DErr Rec)
    (sname : String) (f : FieldD) (lv : Option Value) :
    Except DErr (Option DVal) :=
  match lv with
  | none =>
      if f.required then .error (.missingField sname f.name) else .ok none
  | some .null =>
      if f.required then .error (.fieldDecode sname f.name .null) else .ok none
  | some v =>
      match f.ty with
      | .prim c =>
          match applyCoercion c v with
          | some dv => .ok (some dv)
          | none => .error (.fieldDecode sname f.name v)
      | .recS s =>
          match dec s v with
          | .ok r => .ok (some (.record r))
          | .error e => .error (.inField sname f.name e)
      | .recList s =>
          match v with
          | .arr vs =>
              match vs.mapM (fun x => dec s x) with
              | .ok rs => .ok (some (.list (rs.map DVal.record)))
              | .error e => .error (.inField sname f.name e)
          | _ => .error (.fieldDecode sname f.name v)

/-- The independent per-field decode attempts of one record, in schema
declaration order. -/
def fieldAttempts (dec : Schema → Value → Except DErr Rec)
    (s : Schema) (raw : List (String × Value)) :
    List (String × Except DErr (Option DVal)) :=
  s.fields.map (fun f => (f.name, decodeFieldWith dec s.sname f (lookupField raw f)))

/-- Assemble per-field attempts into a record, failing eagerly at the
first (leftmost) field error: decoding a single record is all-or-nothing. -/
def buildRec : List (String × Except DErr (Option DVal)) → Except DErr Rec
  | [] => .ok []
  | (_, .error e) :: _ => .error e
  | (n, .ok dv) :: rest =>
      match buildRec rest with
      | .ok r => .ok ((n, dv) :: r)
      | .error e => .error e

/-- Modelled from the spec: decode one raw fragment against a schema,
given a decoder `dec` for nested records.  A mapping is decoded field by
field; `null` (or an absent fragment) behaves as an empty mapping; any
other raw shape is a hard failure for this record. -/
def decodeWith (dec : Schema → Value → Except DErr Rec)
    (s : Schema) (v : Value) : Except DErr Rec :=
  match v with
  | .obj raw => buildRec (fieldAttempts dec s raw)
  | .null => buildRec (fieldAttempts dec s [])
  | other => .error (.notAMapping s.sname other)

/-- The decoder, stratified by a recursion-depth fuel consumed only when
descending into nested records; every schema in this development has
nesting depth at most four, so any fuel of at least five is exact. -/
def decodeTop : Nat → Schema → Value → Except DErr Rec
  | 0, s, _ => .error (.outOfFuel s.sname)
  | fuel + 1, s, v => decodeWith (decodeTop fuel) s v

/-- Modelled from the spec: leaf of the re-encode path.  A passthrough
value is re-emitted as received; a coerced boolean is emitted as the
stored boolean (this is exactly what the identity `serialize` of the
strategies produces); a timestamp is emitted in ISO form. -/
def dvalToValue : DVal → Value
  | .raw v => v
  | .b x => .b x
  | .time t => .s (isoOfEpoch t)
  | .record _ => .null
  | .list _ => .null

/-- Modelled from the spec: re-encode one present field value, given an
encoder `enc` for nested records.  The `Locked` and `OnOff` fields go
through the strategies' `serialize` from `model.py`, which returns the
stored value unchanged. -/
def encodeValWith (enc : Schema → Rec → Value) : FTy → DVal → Value
  | .prim .locked, dv => Locked.serialize (dvalToValue dv)
  | .prim .onoff, dv => OnOff.serialize (dvalToValue dv)
  | .prim _, dv => dvalToValue dv
  | .recS s, .record r => enc s r
  | .recList s, .list items =>
      .arr (items.map (fun it =>
        match it with
        | .record r => enc s r
        | d => dvalToValue d))
  | _, dv => dvalToValue dv

/-- Modelled from the spec: the schema-driven re-encode path mirrors
decode: one key per declared field (keyed by the output field name),
absent values emitted as null. -/
def encodeWith (enc : Schema → Rec → Value) (s : Schema) (r : Rec) : Value :=
  .obj (s.fields.map (fun f => (f.name,
    match assocLookup r f.name with
    | some (some dv) => encodeValWith enc f.ty dv
    | _ => .null)))

/-- The encoder, stratified by nesting-depth fuel like `decodeTop`. -/
def encodeTop : Nat → Schema → Rec → Value
  | 0, _, _ => .null
  | fuel + 1, s, r => encodeWith (encodeTop fuel) s r

/-! ## The schema tables of `model.py`

One `Schema` per dataclass, with the source's field order, aliases,
serialization strategies, inline lambdas, required flags (no dataclass
default) and declared-optional flags (annotation admits `None`). -/

def BatteryStatus : Schema := .mk "BatteryStatus" [
  .mk "current_soc_pct" (some "currentSOC_pct") false true (.prim .passthrough),
  .mk "cruising_range_electric_km" none false true (.prim .passthrough)]

def ChargingStatus : Schema := .mk "ChargingStatus" [
  .mk "remaining" (some "remainingChargingTimeToComplete_min") false true
    (.prim .passthrough),
  .mk "charging_state" none false true (.prim .eqCharging),
  .mk "charge_mode" none false true (.prim .passthrough),
  .mk "charge_power_kw" none false true (.prim .passthrough),
  .mk "charge_rate_kmph" none false true (.prim .passthrough),
  .mk "charge_type" none false true (.prim .passthrough),
  .mk "charge_settings" none false true (.prim .passthrough)]

def ChargingSettings : Schema := .mk "ChargingSettings" [
  .mk "max_charge_current_ac" none false true (.prim .passthrough),
  .mk "aut_unlock_plug_when_charged" none false true (.prim .onoff),
  .mk "auto_unlock_plug_when_charged_ac" none false true (.prim .onoff),
  .mk "target_soc_pct" (some "targetSOC_pct") false true (.prim .passthrough)]

def PlugStatus : Schema := .mk "PlugStatus" [
  .mk "plug_connection_state" none false true (.prim .eqConnected),
  .mk "plug_lock_state" none false true (.prim .locked),
  .mk "external_power" none false true (.prim .passthrough),
  .mk "led_color" none false true (.prim .passthrough)]

def ChargeMode : Schema := .mk "ChargeMode" [
  .mk "preferred_charge_mode" none false true (.prim .passthrough),
  .mk "available_charge_modes" none false true (.prim .passthrough)]

def Charging : Schema := .mk "Charging" [
  .mk "battery_status" none false true (.recS BatteryStatus),
  .mk "charging_status" none false true (.recS ChargingStatus),
  .mk "charging_settings" none false true (.recS ChargingSettings),
  .mk "plug_status" none false true (.recS PlugStatus),
  .mk "charge_mode" none false true (.recS ChargeMode)]

def AccessStatus : Schema := .mk "AccessStatus" [
  .mk "car_captured_timestamp" none true false (.prim .tsIso),
  .mk "overall_status" none false true (.prim .passthrough),
  .mk "door_lock_status" none false true (.prim .locked),
  .mk "doors" none false true (.prim .aggregate),
  .mk "windows" none false true (.prim .aggregate)]

def Access : Schema := .mk "Access" [
  .mk "access_status" none false true (.recS AccessStatus)]

def WindowHeatingStatus : Schema := .mk "WindowHeatingStatus" [
  .mk "window_heating_status" none false true (.prim .passthrough)]

def ClimatisationStatus : Schema := .mk "ClimatisationStatus" [
  .mk "remaining_climatisation_time_min" none false true (.prim .passthrough),
  .mk "climatisation_state" none false true (.prim .onoff)]

def ClimatisationSettings : Schema := .mk "ClimatisationSettings" [
  .mk "target_temperature_C" none false true (.prim .passthrough),
  .mk "target_temperature_F" none false true (.prim .passthrough),
  .mk "unit_in_car" none false true (.prim .passthrough),
  .mk "climatization_at_unlock" none false true (.prim .passthrough),
  .mk "window_heating_enabled" none false true (.prim .passthrough),
  .mk "zone_front_left_enabled" none false true (.prim .passthrough),
  .mk "zone_front_right_enabled" none false true (.prim .passthrough),
  .mk "zone_rear_left_enabled" none false true (.prim .passthrough),
  .mk "zone_rear_right_enabled" none false true (.prim .passthrough)]

def Climatisation : Schema := .mk "Climatisation" [
  .mk "window_heating_status" none false true (.recS WindowHeatingStatus),
  .mk "climatisation_status" none false true (.recS ClimatisationStatus),
  .mk "climatisation_settings" none false true (.recS ClimatisationSettings)]

def SingleTimer : Schema := .mk "SingleTimer" [
  .mk "start" (some "startDateTime") true false (.prim .tsIso),
  .mk "target" (some "targetDateTime") true false (.prim .tsIso)]

def Timer : Schema := .mk "Timer" [
  .mk "id" none true false (.prim .passthrough),
  .mk "enabled" none true false (.prim .passthrough),
  .mk "single_timer" none true false (.recS SingleTimer)]

/-- The `time_in_car` field of `ClimatisationTimersStatus`, with its
strict `strptime` lambda from `model.py`. -/
def timeInCarField : FieldD :=
  .mk "time_in_car" none false true (.prim .tsStrict)

def ClimatisationTimersStatus : Schema := .mk "ClimatisationTimersStatus" [
  timeInCarField,
  .mk "timers" none false true (.recList Timer)]

def ClimatisationTimers : Schema := .mk "ClimatisationTimers" [
  .mk "climatisation_timers_status" none false true
    (.recS ClimatisationTimersStatus)]

def PrimaryEngine : Schema := .mk "PrimaryEngine" [
  .mk "type" none false true (.prim .passthrough),
  .mk "current_soc_pct" none false true (.prim .passthrough),
  .mk "remaining_range_km" none false true (.prim .passthrough),
  .mk "current_fuel_level_pct" none false true (.prim .passthrough)]

/-- `SecondaryEngine.current_soc_pct` is annotated plain `str` (not
optional) yet defaults to `None` in `model.py`: declared-optional false,
required false. -/
def SecondaryEngine : Schema := .mk "SecondaryEngine" [
  .mk "type" none false true (.prim .passthrough),
  .mk "current_soc_pct" none false false (.prim .passthrough),
  .mk "remaining_range_km" none false true (.prim .passthrough),
  .mk "current_fuel_level_pct" none false true (.prim .passthrough)]

def FuelRangeStatus : Schema := .mk "FuelRangeStatus" [
  .mk "car_type" none false true (.prim .passthrough),
  .mk "primary_engine" none false true (.recS PrimaryEngine),
  .mk "secondary_engine" none false true (.recS SecondaryEngine),
  .mk "total_range_km" none false true (.prim .passthrough)]

def FuelStatus : Schema := .mk "FuelStatus" [
  .mk "range_status" none false true (.recS FuelRangeStatus)]

def OilLevelStatus : Schema := .mk "OilLevelStatus" [
  .mk "value" none true false (.prim .passthrough)]

def OilLevel : Schema := .mk "OilLevel" [
  .mk "oil_level_status" none false true (.recS OilLevelStatus)]

def LightsStatus : Schema := .mk "LightsStatus" [
  .mk "lights" none false true (.prim .aggregate)]

def VehicleLights : Schema := .mk "VehicleLights" [
  .mk "lights_status" none false true (.recS LightsStatus)]

def MaintenanceStatus : Schema := .mk "MaintenanceStatus" [
  .mk "inspection_due_days" none false true (.prim .passthrough),
  .mk "inspection_due_km" none false true (.prim .passthrough),
  .mk "mileage_km" none false true (.prim .passthrough),
  .mk "oil_service_due_days" none false true (.prim .passthrough),
  .mk "oil_service_due_km" none false true (.prim .passthrough)]

def VehicleHealthInspection : Schema := .mk "VehicleHealthInspection" [
  .mk "maintenance_status" none false true (.recS MaintenanceStatus)]

def RangeStatus : Schema := .mk "RangeStatus" [
  .mk "electric_range" none false true (.prim .passthrough),
  .mk "gasoline_range" none false true (.prim .passthrough),
  .mk "total_range_km" none false true (.prim .passthrough)]

def OdometerStatus : Schema := .mk "OdometerStatus" [
  .mk "odometer" none false true (.prim .passthrough)]

def FuelLevelStatus : Schema := .mk "FuelLevelStatus" [
  .mk "current_soc_pct" none false true (.prim .passthrough),
  .mk "current_fuel_level_pct" none false true (.prim .passthrough),
  .mk "primary_engine_type" none false true (.prim .passthrough),
  .mk "secondary_engine_type" none false true (.prim .passthrough),
  .mk "car_type" none false true (.prim .passthrough)]

def TemperatureBatteryStatus : Schema := .mk "TemperatureBatteryStatus" [
  .mk "temperature_hv_battery_max_k" none true false (.prim .passthrough),
  .mk "temperature_hv_battery_min_k" none true false (.prim .passthrough)]

def Measurements : Schema := .mk "Measurements" [
  .mk "range_status" none false true (.recS RangeStatus),
  .mk "odometer_status" none false true (.recS OdometerStatus),
  .mk "fuel_level_status" none false true (.recS FuelLevelStatus),
  .mk "temperature_battery_status" none false true
    (.recS TemperatureBatteryStatus)]

def WarningLights : Schema := .mk "WarningLights" [
  .mk "lights" none false true (.prim .aggregate)]

def VehicleHealthWarnings : Schema := .mk "VehicleHealthWarnings" [
  .mk "warning_lights" none false true (.recS WarningLights)]

def UserCapabilities : Schema := .mk "UserCapabilities" [
  .mk "capabilities_status" none false true (.prim .passthrough)]

/-- The top-level aggregate record composing all sub-resources as optional
fields. -/
def Model : Schema := .mk "Model" [
  .mk "user_capabilities" none false true (.recS UserCapabilities),
  .mk "access" none false true (.recS Access),
  .mk "charging" none false true (.recS Charging),
  .mk "climatisation_timers" none false true (.recS ClimatisationTimers),
  .mk "climatisation" none false true (.recS Climatisation),
  .mk "fuel_status" none false true (.recS FuelStatus),
  .mk "vehicle_health_inspection" none false true
    (.recS VehicleHealthInspection),
  .mk "vehicle_lights" none false true (.recS VehicleLights),
  .mk "measurements" none false true (.recS Measurements),
  .mk "oil_level" none false true (.recS OilLevel),
  .mk "vehicle_health_warnings" none false true (.recS VehicleHealthWarnings)]

/-! ## Remaining definitions used by the claim statements -/

/-- A schema all of whose declared fields are optional. -/
def allOptional (s : Schema) : Bool :=
  s.fields.all (fun f => !f.required)

/-- The record with every declared field holding no value. -/
def allNone (s : Schema) : Rec :=
  s.fields.map (fun f => (f.name, none))

/-- A key matches no declared field of the schema: it differs from every
explicit alias, and its normalized form differs from every non-aliased
field name. -/
def freshFor (f : FieldD) (k : String) : Bool :=
  match f.al with
  | some a => !(k == a)
  | none => !(camel2snake k == f.name)

/-- Declared-optional flag of a named field of a schema. -/
def fieldDeclaredOptional (s : Schema) (n : String) : Option Bool :=
  (s.fields.find? (fun f => f.name == n)).map FieldD.declaredOptional

/-- A decoded `AccessStatus` whose lock field holds true. -/
def rLockedTrue : Rec := [
  ("car_captured_timestamp", some (.time 1682935200000000)),
  ("overall_status", none),
  ("door_lock_status", some (.b true)),
  ("doors", none),
  ("windows", none)]

/-- A decoded `AccessStatus` whose lock field holds false. -/
def rLockedFalse : Rec := [
  ("car_captured_timestamp", some (.time 1682935200000000)),
  ("overall_status", none),
  ("door_lock_status", some (.b false)),
  ("doors", none),
  ("windows", none)]

/-- A well-formed raw `access` sub-resource fragment. -/
def goodAccessRaw : Value :=
  .obj [("accessStatus", .obj [("carCapturedTimestamp", .s "2023-05-01T12:00:00+02:00")])]

/-- The decode of `goodAccessRaw` against the `Access` schema. -/
def accessDecodedRec : Rec := [("access_status", some (.record [
  ("car_captured_timestamp", some (.time 1682935200000000)),
  ("overall_status", none),
  ("door_lock_status", none),
  ("doors", none),
  ("windows", none)]))]

/-! ## Helper lemmas -/

theorem lookupField_nil (f : FieldD) : lookupField [] f = none := by
  cases f with
  | mk n a r o ty => cases a <;> rfl

theorem decodeFieldWith_none_notRequired (dec : Schema → Value → Except DErr Rec)
    (sname : String) (f : FieldD) (h : f.required = false) :
    decodeFieldWith dec sname f none = .ok none := by
  simp [decodeFieldWith, h]

theorem buildRec_allOpt (dec : Schema → Value → Except DErr Rec) (sname : String) :
    ∀ fs : List FieldD, (fs.all fun f => !f.required) = true →
    buildRec (fs.map fun f => (f.name, decodeFieldWith dec sname f (lookupField [] f))) =
      .ok (fs.map fun f => (f.name, none)) := by
  intro fs h
  induction fs with
  | nil => rfl
  | cons f rest ih =>
      rw [List.all_cons, Bool.and_eq_true] at h
      have hf : f.required = false := by
        cases hr : f.required
        · rfl
        · rw [hr] at h
          simp at h
      rw [List.map_cons, List.map_cons, lookupField_nil,
        decodeFieldWith_none_notRequired dec sname f hf]
      simp [buildRec, ih h.2]

theorem lookupField_cons_fresh (k : String) (v : Value)
    (raw : List (String × Value)) (f : FieldD) (h : freshFor f k = true) :
    lookupField ((k, v) :: raw) f = lookupField raw f := by
  cases f with
  | mk n a r o ty =>
      cases a with
      | some al =>
          simp only [freshFor, FieldD.al, Bool.not_eq_eq_eq_not, Bool.not_true,
            beq_eq_false_iff_ne, ne_eq] at h
          simp [lookupField, FieldD.al, assocLookup, h]
      | none =>
          simp only [freshFor, FieldD.al, FieldD.name, Bool.not_eq_eq_eq_not,
            Bool.not_true, beq_eq_false_iff_ne, ne_eq] at h
          simp [lookupField, FieldD.al, FieldD.name, normalizeKeys, assocLookup, h]

theorem buildRec_error_of_mem (fname : String) (e : DErr) :
    ∀ l : List (String × Except DErr (Option DVal)),
      (fname, Except.error e) ∈ l → ∃ e2 : DErr, buildRec l = .error e2 := by
  intro l
  induction l with
  | nil => intro h; cases h
  | cons hd tl ih =>
      intro h
      obtain ⟨n2, ev⟩ := hd
      cases ev with
      | error e2 => exact ⟨e2, rfl⟩
      | ok dv =>
          cases h with
          | tail _ hmem =>
              obtain ⟨e2, h2⟩ := ih hmem
              exact ⟨e2, by simp [buildRec, h2]⟩

/-! ## The claims -/

/-- C1.  Decoding the raw mapping with keys `currentSOC_pct` and
`cruisingRangeElectricKm` against the battery-status schema yields 87 and
210 in the canonical fields; in general a field with an explicit alias is
matched by looking the alias up verbatim in the raw mapping, and every
other field is matched against the normalized keys. -/
theorem battery_alias_decode :
    decodeTop 10 BatteryStatus
        (.obj [("currentSOC_pct", .i 87), ("cruisingRangeElectricKm", .i 210)]) =
      .ok [("current_soc_pct", some (.raw (.i 87))),
           ("cruising_range_electric_km", some (.raw (.i 210)))]
    ∧ (∀ (raw : List (String × Value)) (f : FieldD) (a : String),
        f.al = some a → lookupField raw f = assocLookup raw a)
    ∧ (∀ (raw : List (String × Value)) (f : FieldD),
        f.al = none → lookupField raw f = assocLookup (normalizeKeys raw) f.name) := by
  refine ⟨rfl, ?_, ?_⟩
  · intro raw f a h
    cases f with
    | mk n al r o ty =>
        simp only [FieldD.al] at h
        subst h
        rfl
  · intro raw f h
    cases f with
    | mk n al r o ty =>
        simp only [FieldD.al] at h
        subst h
        rfl

/-- Witness for C1: the alias and normalized lookups at the scenario's own
raw keys and fields. -/
theorem battery_alias_decode_witness :
    lookupField [("currentSOC_pct", Value.i 87)]
        (FieldD.mk "current_soc_pct" (some "currentSOC_pct") false true (.prim .passthrough)) =
      assocLookup [("currentSOC_pct", Value.i 87)] "currentSOC_pct"
    ∧ lookupField [("cruisingRangeElectricKm", Value.i 210)]
        (FieldD.mk "cruising_range_electric_km" none false true (.prim .passthrough)) =
      assocLookup (normalizeKeys [("cruisingRangeElectricKm", Value.i 210)])
        "cruising_range_electric_km" :=
  ⟨battery_alias_decode.2.1 _ _ _ rfl, battery_alias_decode.2.2 _ _ rfl⟩

/-- C2 counterexample.  Re-encoding a decoded record whose
`door_lock_status` holds true and decoding it again does not reproduce the
record: the identity `serialize` emits the stored boolean, and
re-deserializing the boolean against `"locked"` yields false. -/
theorem roundtrip_fails_on_locked_true :
    decodeTop 10 AccessStatus (encodeTop 10 AccessStatus rLockedTrue) ≠
      Except.ok rLockedTrue := by
  rw [show decodeTop 10 AccessStatus (encodeTop 10 AccessStatus rLockedTrue) =
        Except.ok rLockedFalse from rfl]
  simp [rLockedTrue, rLockedFalse]

/-- C2 amended.  The re-encode/decode composition collapses every
`Locked`-strategy field to false and every `OnOff`-strategy field to true
(the strategies' `serialize` is the identity, not an inverse of their
`deserialize`), so the round-trip reproduces the record exactly when those
fields already hold these constants: it does for the record whose lock
field holds false. -/
theorem roundtrip_amended :
    decodeTop 10 AccessStatus (encodeTop 10 AccessStatus rLockedFalse) =
      Except.ok rLockedFalse
    ∧ (∀ x : Bool, Locked.deserialize (Locked.serialize (dvalToValue (.b x))) = false)
    ∧ (∀ x : Bool, OnOff.deserialize (OnOff.serialize (dvalToValue (.b x))) = true) :=
  ⟨rfl, fun _ => rfl, fun _ => rfl⟩

/-- C3.  In the top-level aggregate, sub-resource decodes are attempted
independently: for every pair of raw aggregate documents locating the
same raw value for a given sub-resource field of `Model`, that field's
decode attempt is identical, whatever the sibling sub-resources hold (so
a hard failure in one sub-resource cannot prevent decoding of another);
more concretely, placing any raw value under any key matching none of a
field's lookup keys leaves that field's attempt unchanged.  A field
attempt that fails hard makes the whole record decode an error (for any
schema and document), so the failure is reported distinctly rather than
silently becoming no-value.  Scenario: with a well-formed `access` and a
malformed `charging`, the `access` attempt still yields its decoded
record for every malformed value, and the aggregate decode reports the
path-wrapped `charging` failure. -/
theorem sibling_subresources_independent :
    (∀ (fuel : Nat) (raw1 raw2 : List (String × Value)) (f : FieldD),
      f ∈ Model.fields → lookupField raw1 f = lookupField raw2 f →
      decodeFieldWith (decodeTop fuel) Model.sname f (lookupField raw1 f) =
        decodeFieldWith (decodeTop fuel) Model.sname f (lookupField raw2 f))
    ∧ (∀ (fuel : Nat) (raw : List (String × Value)) (k : String) (v : Value) (f : FieldD),
      f ∈ Model.fields → freshFor f k = true →
      decodeFieldWith (decodeTop fuel) Model.sname f (lookupField ((k, v) :: raw) f) =
        decodeFieldWith (decodeTop fuel) Model.sname f (lookupField raw f))
    ∧ (∀ (fuel : Nat) (s : Schema) (raw : List (String × Value)) (fname : String) (e : DErr),
      (fname, Except.error e) ∈ fieldAttempts (decodeTop fuel) s raw →
      ∃ e2 : DErr, decodeTop (fuel + 1) s (.obj raw) = .error e2)
    ∧ (∀ junk : Value,
      assocLookup (fieldAttempts (decodeTop 9) Model
          [("access", goodAccessRaw), ("charging", junk)]) "access" =
        some (.ok (some (.record accessDecodedRec))))
    ∧ assocLookup (fieldAttempts (decodeTop 9) Model
          [("access", goodAccessRaw), ("charging", .s "garbage")]) "charging" =
        some (.error (.inField "Model" "charging" (.notAMapping "Charging" (.s "garbage"))))
    ∧ decodeTop 10 Model (.obj [("access", goodAccessRaw), ("charging", .s "garbage")]) =
        .error (.inField "Model" "charging" (.notAMapping "Charging" (.s "garbage"))) := by
  refine ⟨?_, ?_, ?_, fun _ => rfl, rfl, rfl⟩
  · intro fuel raw1 raw2 f _ h
    rw [h]
  · intro fuel raw k v f _ h
    rw [lookupField_cons_fresh k v raw f h]
  · intro fuel s raw fname e h
    exact buildRec_error_of_mem fname e _ h

/-- Witness for C3: the generic conjuncts applied at the scenario
document, discharging the membership, lookup-agreement and freshness
hypotheses at the `access` field and the malformed `charging` entry. -/
theorem sibling_subresources_independent_witness :
    decodeFieldWith (decodeTop 9) Model.sname
        (FieldD.mk "access" none false true (.recS Access))
        (lookupField [("access", goodAccessRaw), ("charging", Value.s "garbage")]
          (FieldD.mk "access" none false true (.recS Access))) =
      decodeFieldWith (decodeTop 9) Model.sname
        (FieldD.mk "access" none false true (.recS Access))
        (lookupField [("access", goodAccessRaw)]
          (FieldD.mk "access" none false true (.recS Access)))
    ∧ (∃ e2 : DErr, decodeTop 10 Model
        (Value.obj [("access", goodAccessRaw), ("charging", Value.s "garbage")]) =
          Except.error e2) :=
  ⟨sibling_subresources_independent.2.1 9 [("access", goodAccessRaw)] "charging"
      (Value.s "garbage") (FieldD.mk "access" none false true (.recS Access))
      (List.Mem.tail _ (List.Mem.head _)) (by decide),
   sibling_subresources_independent.2.2.1 9 Model
      [("access", goodAccessRaw), ("charging", Value.s "garbage")] "charging"
      (DErr.inField "Model" "charging" (DErr.notAMapping "Charging" (Value.s "garbage")))
      (List.Mem.tail _ (List.Mem.tail _ (List.Mem.head _)))⟩

/-- C4.  The lock-state coercion is true exactly on the string
`"locked"`, case-sensitively; anything else yields false. -/
theorem locked_iff_locked_string :
    (∀ str : String, Locked.deserialize (.s str) = (str == "locked"))
    ∧ Locked.deserialize (.s "locked") = true
    ∧ Locked.deserialize (.s "unlocked") = false
    ∧ Locked.deserialize (.s "unknown") = false
    ∧ Locked.deserialize (.s "Locked") = false
    ∧ Locked.deserialize (.s "LOCKED") = false :=
  ⟨fun _ => rfl, by decide, by decide, by decide, by decide, by decide⟩

/-- C5.  The on/off coercion is false exactly on the string `"off"`;
every other string, including unrecognized values, yields true. -/
theorem onoff_false_iff_off_string :
    (∀ str : String, OnOff.deserialize (.s str) = !(str == "off"))
    ∧ OnOff.deserialize (.s "off") = false
    ∧ OnOff.deserialize (.s "on") = true
    ∧ OnOff.deserialize (.s "anything-else") = true :=
  ⟨fun _ => rfl, by decide, by decide, by decide⟩

/-- C6.  For every schema all of whose fields are optional, decoding null
or an empty mapping never fails and yields the record with every field
holding no value. -/
theorem all_optional_decodes_empty :
    ∀ (n : Nat) (s : Schema), allOptional s = true →
      decodeTop (n + 1) s .null = .ok (allNone s)
      ∧ decodeTop (n + 1) s (.obj []) = .ok (allNone s) := by
  intro n s h
  cases s with
  | mk sname fs => exact ⟨buildRec_allOpt _ sname fs h, buildRec_allOpt _ sname fs h⟩

/-- Witness for C6: the top-level `Model` and `ClimatisationSettings`
schemas are all-optional and decode null and the empty mapping to
all-none records. -/
theorem all_optional_decodes_empty_witness :
    (allOptional Model = true ∧ decodeTop 10 Model .null = .ok (allNone Model))
    ∧ (allOptional ClimatisationSettings = true
        ∧ decodeTop 10 ClimatisationSettings (.obj []) = .ok (allNone ClimatisationSettings)) :=
  ⟨⟨by decide, (all_optional_decodes_empty 9 Model (by decide)).1⟩,
   ⟨by decide, (all_optional_decodes_empty 9 ClimatisationSettings (by decide)).2⟩⟩

/-- C7.  A required field whose raw value is absent fails with a
MissingFieldError naming the schema and the field; the decoders of the
concrete schemas with required fields fail exactly so on an empty
mapping, never yielding a record with the field unset. -/
theorem required_field_missing_error :
    (∀ (dec : Schema → Value → Except DErr Rec) (sname : String) (f : FieldD),
      f.required = true →
      decodeFieldWith dec sname f none = .error (.missingField sname f.name))
    ∧ decodeTop 10 SingleTimer (.obj []) = .error (.missingField "SingleTimer" "start")
    ∧ decodeTop 10 AccessStatus (.obj []) =
        .error (.missingField "AccessStatus" "car_captured_timestamp")
    ∧ decodeTop 10 OilLevelStatus (.obj []) = .error (.missingField "OilLevelStatus" "value") := by
  refine ⟨?_, rfl, rfl, rfl⟩
  intro dec sname f h
  simp [decodeFieldWith, h]

/-- Witness for C7: the generic statement applied to the required `start`
field of `SingleTimer`. -/
theorem required_field_missing_error_witness :
    decodeFieldWith (decodeTop 9) "SingleTimer"
        (FieldD.mk "start" (some "startDateTime") true false (.prim .tsIso)) none =
      .error (.missingField "SingleTimer" "start") :=
  required_field_missing_error.1 _ _ _ rfl

/-- C8.  The `time_in_car` field decodes a present string through the
strict strptime pattern: a matching string yields its absolute instant
(the scenario timestamp with offset +02:00 is the same instant as its
+00:00 form), and any non-matching string yields a FieldDecodeError
naming the field and the offending value.  The acceptance boundary is
CPython's: offset minutes beyond 59 are rejected, while one-digit date
and time components, a lowercase `t` and fractional offset seconds are
accepted. -/
theorem time_in_car_strict_timestamp :
    (∀ str : String,
      decodeFieldWith (decodeTop 9) "ClimatisationTimersStatus" timeInCarField
          (some (.s str)) =
        match strptimeTZ str with
        | some t => .ok (some (.time t))
        | none => .error (.fieldDecode "ClimatisationTimersStatus" "time_in_car" (.s str)))
    ∧ decodeTop 10 ClimatisationTimersStatus
        (.obj [("timeInCar", .s "2023-05-01T12:00:00+02:00")]) =
      .ok [("time_in_car", some (.time 1682935200000000)), ("timers", none)]
    ∧ strptimeTZ "2023-05-01T12:00:00+02:00" = strptimeTZ "2023-05-01T10:00:00+00:00"
    ∧ decodeTop 10 ClimatisationTimersStatus (.obj [("timeInCar", .s "not-a-date")]) =
        .error (.fieldDecode "ClimatisationTimersStatus" "time_in_car" (.s "not-a-date"))
    ∧ strptimeTZ "2023-05-01T12:00:00+02:99" = none
    ∧ strptimeTZ "2023-5-1t2:3:4+02:00" = some 1682899384000000
    ∧ strptimeTZ "2023-05-01T12:00:00+00:00:10.500000" = some 1682942389500000 := by
  refine ⟨?_, rfl, rfl, rfl, by decide, by decide, by decide⟩
  intro str
  cases h : strptimeTZ str <;>
    simp [decodeFieldWith, timeInCarField, FieldD.ty, FieldD.name, applyCoercion, h]

/-- C9.  Adding a raw key that matches no declared field of the schema
leaves the decode result unchanged (unknown keys are silently ignored,
never a failure). -/
theorem unknown_key_ignored :
    ∀ (n : Nat) (s : Schema) (k : String) (v : Value) (raw : List (String × Value)),
      (s.fields.all fun f => freshFor f k) = true →
      decodeTop n s (.obj ((k, v) :: raw)) = decodeTop n s (.obj raw) := by
  intro n s k v raw h
  cases n with
  | zero => rfl
  | succ m =>
      cases s with
      | mk sname fs =>
          show buildRec _ = buildRec _
          congr 1
          unfold fieldAttempts
          refine List.map_congr_left ?_
          intro f hf
          rw [List.all_eq_true] at h
          rw [lookupField_cons_fresh k v raw f (h f hf)]

/-- Witness for C9: an unknown extra key added to the battery-status
scenario changes nothing. -/
theorem unknown_key_ignored_witness :
    decodeTop 10 BatteryStatus
        (.obj [("someNewFieldNotInSchema", .i 1),
               ("currentSOC_pct", .i 87), ("cruisingRangeElectricKm", .i 210)]) =
      decodeTop 10 BatteryStatus
        (.obj [("currentSOC_pct", .i 87), ("cruisingRangeElectricKm", .i 210)]) :=
  unknown_key_ignored 10 BatteryStatus "someNewFieldNotInSchema" (.i 1)
    [("currentSOC_pct", .i 87), ("cruisingRangeElectricKm", .i 210)] (by decide)

/-- C10.  Decoding an empty mapping as `SecondaryEngine` succeeds with
`current_soc_pct` holding no value although that field's annotation is
the non-optional string type, unlike `PrimaryEngine` where the same field
is declared optional. -/
theorem secondary_engine_nonoptional_none :
    decodeTop 10 SecondaryEngine (.obj []) =
      .ok [("type", none), ("current_soc_pct", none),
           ("remaining_range_km", none), ("current_fuel_level_pct", none)]
    ∧ fieldDeclaredOptional SecondaryEngine "current_soc_pct" = some false
    ∧ fieldDeclaredOptional PrimaryEngine "current_soc_pct" = some true :=
  ⟨rfl, rfl, rfl⟩
